import Mathlib

/-!
Verification development for the semantic SQL query cache of the
MiniRedisDb repository.  The Go sources (sql_parser.go, sql_storage.go and
the SQL handler file) are shallowly embedded below: Go strings are modelled
through their character lists, Go maps used as association structures are
modelled as association lists, `container/list` elements are modelled by an
id-indexed arena so that pointer behaviour (detached elements staying
readable) is preserved, and the two Go regular expressions are modelled by a
leftmost-first backtracking matcher over their exact token sequences.
-/

set_option maxRecDepth 8000

namespace MiniRedisSQL

/-! ### Go string helpers (strings / strconv packages, ASCII fragment) -/

/-- Character set of Go `unicode.IsSpace` restricted to ASCII (the inputs the
server handles are ASCII; the two Latin-1 space characters are irrelevant). -/
def goIsSpace (c : Char) : Bool :=
  c = ' ' || c = '\t' || c = '\n' || c = '\x0b' || c = '\x0c' || c = '\r'

/-- Character class of `\s` in RE2 (Perl character class): `[\t\n\f\r ]`. -/
def reIsSpace (c : Char) : Bool :=
  c = ' ' || c = '\t' || c = '\n' || c = '\x0c' || c = '\r'

/-- Go `strings.TrimSpace`. -/
def goTrimSpace (s : String) : String :=
  String.mk (((s.data.dropWhile goIsSpace).reverse.dropWhile goIsSpace).reverse)

/-- Go `strings.Trim` with an explicit cutset. -/
def goTrimCutset (cutset : List Char) (s : String) : String :=
  String.mk (((s.data.dropWhile (· ∈ cutset)).reverse.dropWhile (· ∈ cutset)).reverse)

/-- Is the first list a prefix of the second (char-exact)? -/
def isPrefixList : List Char → List Char → Bool
  | [], _ => true
  | _ :: _, [] => false
  | a :: as, b :: bs => a == b && isPrefixList as bs

/-- Go `strings.Index` on character lists: index of the first occurrence of
`needle`, `none` when absent (Go returns -1). -/
def strIndexList (needle : List Char) : List Char → Option Nat
  | [] => if isPrefixList needle [] then some 0 else none
  | c :: t =>
    if isPrefixList needle (c :: t) then some 0
    else (strIndexList needle t).map (· + 1)

/-- Go `strings.Contains`. -/
def goContains (s sub : String) : Bool :=
  (strIndexList sub.data s.data).isSome

/-- Go `strings.ToUpper`, ASCII fragment. -/
def goToUpper (s : String) : String :=
  String.mk (s.data.map Char.toUpper)

/-- Go `strings.EqualFold`, ASCII fragment (simple case folding). -/
def goEqualFold (a b : String) : Bool :=
  a.data.map Char.toLower == b.data.map Char.toLower

/-- Go `strings.ReplaceAll s " " ""`: delete every space character. -/
def goDropSpaces (s : String) : String :=
  String.mk (s.data.filter (· ≠ ' '))

/-- Fuel-driven worker for Go `strings.Split` with a non-empty separator.
With fuel at least the input length plus one the fuel never runs out. -/
def splitOnListAux (sep : List Char) : Nat → List Char → List (List Char)
  | 0, s => [s]
  | Nat.succ fuel, s =>
    match strIndexList sep s with
    | none => [s]
    | some i => s.take i :: splitOnListAux sep fuel (s.drop (i + sep.length))

/-- Go `strings.Split` (separator non-empty). -/
def goSplit (s sep : String) : List String :=
  (splitOnListAux sep.data (s.data.length + 1) s.data).map String.mk

/-- Go `strconv.Atoi`: optional sign followed by one or more decimal digits
and nothing else.  (Values appearing in this codebase are far below the
int64 overflow bound, so overflow is not modelled.) -/
def goAtoi (s : String) : Option Int :=
  let cs := s.data
  let signed : Bool × List Char :=
    match cs with
    | '-' :: rest => (true, rest)
    | '+' :: rest => (false, rest)
    | _ => (false, cs)
  let digits := signed.2
  if digits.isEmpty then none
  else if digits.all Char.isDigit then
    let n : Nat := digits.foldl (fun acc d => acc * 10 + (d.toNat - 48)) 0
    some (if signed.1 then -(n : Int) else (n : Int))
  else none

/-! ### Data model (sql_storage.go, sql_parser.go) -/

/-- A dynamically typed cell value: the Go code stores `int` and `string`
values in its `interface{}` row cells. -/
inductive Value where
  | vInt (i : Int)
  | vStr (s : String)
deriving DecidableEq

/-- Go `fmt.Sprintf("%v", val)` for the two cell value kinds. -/
def valueRender : Value → String
  | .vInt i => toString i
  | .vStr s => s

/-- `Row` is `map[string]interface{}`; modelled as an association list with
unique keys (lookup takes the first binding). -/
def Row := List (String × Value)
deriving DecidableEq

/-- Go map lookup `row[col]`. -/
def rowGet (row : Row) (col : String) : Option Value :=
  (row.find? (fun p => p.1 == col)).map (·.2)

/-- Go map insert `row[col] = v` (replace the binding when present). -/
def rowInsert (row : Row) (col : String) (v : Value) : Row :=
  match row with
  | [] => [(col, v)]
  | (k, w) :: rest =>
    if k == col then (k, v) :: rest else (k, w) :: rowInsert rest col v

/-- `Table` from sql_storage.go. -/
structure Table where
  Name : String
  Columns : List String
  Rows : List Row
deriving DecidableEq

/-- `WhereCondition` from sql_parser.go. -/
structure WhereCondition where
  Column : String
  Operator : String
  Value : String
deriving DecidableEq

/-- `WhereCondition.GetAsInt` from sql_parser.go. -/
def WhereCondition.GetAsInt (wc : WhereCondition) : Option Int :=
  goAtoi wc.Value

/-- `QueryAST` from sql_parser.go. -/
structure QueryAST where
  OriginalString : String
  SelectColumns : List String
  FromTable : String
  Where : Option WhereCondition
deriving DecidableEq

/-! ### Filter / projection evaluator (SQL handler file) -/

/-- `checkCondition` from the SQL handler file: evaluate a row against an
optional WHERE condition.  When both the condition value parses as an
integer and the cell is an integer, the three comparison operators use
integer semantics; otherwise only `=` is supported, comparing the rendered
cell against the lexical condition value. -/
def checkCondition (row : Row) (cond : Option WhereCondition) : Bool :=
  match cond with
  | none => true
  | some c =>
    match rowGet row c.Column with
    | none => false
    | some v =>
      let intStep : Option Bool :=
        match c.GetAsInt, v with
        | some condVal, .vInt rowVal =>
          if c.Operator == ">" then some (decide (rowVal > condVal))
          else if c.Operator == "<" then some (decide (rowVal < condVal))
          else if c.Operator == "=" then some (decide (rowVal = condVal))
          else none
        | _, _ => none
      match intStep with
      | some b => b
      | none => if c.Operator == "=" then valueRender v == c.Value else false

/-- The filtering and projection body shared by `executeOnBackingStore`
(it is that function's code applied to the table it looked up). -/
def evalQuery (query : QueryAST) (table : Table) : Table :=
  let resultRows := table.Rows.filter (fun row => checkCondition row query.Where)
  let star := query.SelectColumns.headD "" == "*"
  let finalRows :=
    resultRows.map (fun row =>
      if star then row
      else query.SelectColumns.foldl
        (fun newRow col =>
          match rowGet row col with
          | some val => rowInsert newRow col val
          | none => newRow) ([] : Row))
  let finalCols := if star then table.Columns else query.SelectColumns
  { Name := "results", Columns := finalCols, Rows := finalRows }

/-- `executeOnBackingStore` from the SQL handler file. -/
def executeOnBackingStore (db : List (String × Table)) (query : QueryAST) :
    Except String Table :=
  match (db.find? (fun p => p.1 == query.FromTable)).map (·.2) with
  | none => .error ("table \x27" ++ query.FromTable ++ "\x27 not found")
  | some table => .ok (evalQuery query table)

/-! ### Subsumption engine (SQL handler file) -/

/-- `isConditionSubset` from the SQL handler file. -/
def isConditionSubset (newCond cachedCond : Option WhereCondition) : Bool :=
  match cachedCond with
  | none => true
  | some cc =>
    match newCond with
    | none => false
    | some nc =>
      if nc.Column != cc.Column then false
      else
        let fallback :=
          if nc.Operator == "=" && cc.Operator == "=" then nc.Value == cc.Value
          else false
        match nc.GetAsInt, cc.GetAsInt with
        | some newVal, some cachedVal =>
          if nc.Operator == ">" && cc.Operator == ">" then decide (newVal ≥ cachedVal)
          else if nc.Operator == "<" && cc.Operator == "<" then decide (newVal ≤ cachedVal)
          else if nc.Operator == "=" && cc.Operator == ">" then decide (newVal > cachedVal)
          else if nc.Operator == "=" && cc.Operator == "<" then decide (newVal < cachedVal)
          else fallback
        | _, _ => fallback

/-- `isQuerySubset` from the SQL handler file: is `newQuery` a semantic
subset of `cachedQuery`? -/
def isQuerySubset (newQuery cachedQuery : QueryAST) : Bool :=
  if newQuery.FromTable != cachedQuery.FromTable then false
  else
    let selOK :=
      if cachedQuery.SelectColumns.headD "" != "*" then
        newQuery.SelectColumns.all
          (fun col => col == "*" || cachedQuery.SelectColumns.contains col)
      else true
    selOK && isConditionSubset newQuery.Where cachedQuery.Where

/-- `filterResultsFromSuperset` from the SQL handler file. -/
def filterResultsFromSuperset (superset : Table) (newCondition : Option WhereCondition) :
    Table :=
  match newCondition with
  | none => superset
  | some nc =>
    { Name := "filtered_results"
      Columns := superset.Columns
      Rows := superset.Rows.filter (fun row => checkCondition row (some nc)) }

/-! ### Regular expressions of sql_parser.go

Go `regexp` uses leftmost-first (Perl-like) matching: the match starts as
early as possible and greedy quantifiers try the longest alternative first,
backtracking on failure.  The two patterns of the parser are sequences of
case-insensitive literals, `\s+` / `\s*`, and the capture groups `(.+)`,
`([^\s]+)` and `([<>=])`; they are modelled token by token. -/

/-- One token of the two parser patterns. -/
inductive RTok where
  | lit (w : List Char)
  | wsPlus
  | wsStar
  | grpAny
  | grpNonWS
  | grpOp

/-- Strip a case-insensitive literal (ASCII folding, matching `(?i)`). -/
def stripCI : List Char → List Char → Option (List Char)
  | [], s => some s
  | _ :: _, [] => none
  | a :: as, b :: bs =>
    if a.toLower == b.toLower then stripCI as bs else none

/-- First `some` produced along a list of candidates (backtracking order). -/
def foldFirst {α β : Type} (f : α → Option β) : List α → Option β
  | [] => none
  | a :: as =>
    match f a with
    | some b => some b
    | none => foldFirst f as

/-- Greedy splits for a quantified character class: every way to let the
quantifier consume a prefix of the maximal run of class characters, longest
first, down to `minLen`. -/
def greedySplits (p : Char → Bool) (minLen : Nat) (s : List Char) :
    List (List Char × List Char) :=
  let n := (s.takeWhile p).length
  if n < minLen then []
  else (List.range (n + 1 - minLen)).map (fun i => (s.take (n - i), s.drop (n - i)))

/-- Leftmost-first matching of a token sequence at the start of `s` (the
remainder of `s` past the match is ignored, as for an unanchored Go regexp).
Returns the captured groups in pattern order on success. -/
def reMatch : List RTok → List Char → Option (List (List Char))
  | [], _ => some []
  | .lit w :: ts, s =>
    match stripCI w s with
    | some s1 => reMatch ts s1
    | none => none
  | .wsPlus :: ts, s =>
    foldFirst (fun sp => reMatch ts sp.2) (greedySplits reIsSpace 1 s)
  | .wsStar :: ts, s =>
    foldFirst (fun sp => reMatch ts sp.2) (greedySplits reIsSpace 0 s)
  | .grpAny :: ts, s =>
    foldFirst (fun sp => (reMatch ts sp.2).map (sp.1 :: ·))
      (greedySplits (fun c => c ≠ '\n') 1 s)
  | .grpNonWS :: ts, s =>
    foldFirst (fun sp => (reMatch ts sp.2).map (sp.1 :: ·))
      (greedySplits (fun c => !reIsSpace c) 1 s)
  | .grpOp :: ts, s =>
    match s with
    | [] => none
    | c :: rest =>
      if c = '<' || c = '>' || c = '=' then (reMatch ts rest).map ([c] :: ·)
      else none

/-- Unanchored search: try every start position, leftmost first
(`FindStringSubmatch`). -/
def reFind (toks : List RTok) : List Char → Option (List (List Char))
  | [] => reMatch toks []
  | c :: t =>
    match reMatch toks (c :: t) with
    | some caps => some caps
    | none => reFind toks t

/-- Token sequence of `sqlRegexNoWhere`:
`(?i)SELECT\s+(.+)\s+FROM\s+([^\s]+)`. -/
def sqlRegexNoWhereToks : List RTok :=
  [.lit "select".data, .wsPlus, .grpAny, .wsPlus, .lit "from".data, .wsPlus, .grpNonWS]

/-- The extra tokens by which `sqlRegex` extends `sqlRegexNoWhere`:
`\s+WHERE\s+([^\s]+)\s*([<>=])\s*(.+)`. -/
def sqlRegexWhereSuffixToks : List RTok :=
  [.wsPlus, .lit "where".data, .wsPlus, .grpNonWS, .wsStar, .grpOp, .wsStar, .grpAny]

/-- Token sequence of `sqlRegex`:
`(?i)SELECT\s+(.+)\s+FROM\s+([^\s]+)\s+WHERE\s+([^\s]+)\s*([<>=])\s*(.+)`. -/
def sqlRegexToks : List RTok :=
  sqlRegexNoWhereToks ++ sqlRegexWhereSuffixToks

/-! ### ParseSQL (sql_parser.go) -/

/-- The input normalisation at the top of `ParseSQL`: `strings.TrimSpace`,
then removal of one trailing semicolon. -/
def processInput (s : String) : String :=
  let t := goTrimSpace s
  match t.data.getLast? with
  | some c => if c = ';' then String.mk t.data.dropLast else t
  | none => t

/-- The shared handling of the first capture group: `*` stays a singleton,
otherwise spaces are removed and the string is split on commas. -/
def parseSelectColumns (colStr : String) : List String :=
  if colStr == "*" then ["*"] else goSplit (goDropSpaces colStr) ","

/-- `ParseSQL` from sql_parser.go. -/
def ParseSQL (input : String) : Except String QueryAST :=
  match reFind sqlRegexToks (processInput input).data with
  | some caps =>
    .ok
      { OriginalString := processInput input
        SelectColumns := parseSelectColumns (goTrimSpace (String.mk (caps.getD 0 [])))
        FromTable := goTrimSpace (String.mk (caps.getD 1 []))
        Where := some
          { Column := goTrimSpace (String.mk (caps.getD 2 []))
            Operator := goTrimSpace (String.mk (caps.getD 3 []))
            Value := goTrimCutset ['\x27', '"'] (goTrimSpace (String.mk (caps.getD 4 []))) } }
  | none =>
    match reFind sqlRegexNoWhereToks (processInput input).data with
    | some caps =>
      .ok
        { OriginalString := processInput input
          SelectColumns := parseSelectColumns (goTrimSpace (String.mk (caps.getD 0 [])))
          FromTable := goTrimSpace (String.mk (caps.getD 1 []))
          Where := none }
    | none => .error "ERR invalid or unsupported SQL query format"

/-- Did parsing succeed? -/
def parseOk (r : Except String QueryAST) : Bool :=
  match r with
  | .ok _ => true
  | .error _ => false

/-! ### Semantic LRU cache (sql_storage.go)

`container/list` elements are modelled by numeric ids.  The recency list is
the id sequence `entries` (front = most recent); the payload of every
element ever allocated lives in `arena` (a removed Go element keeps its
value reachable through surviving pointers, and `MoveToFront` on a removed
element is a no-op, which the id model preserves).  The `lookup` map is an
association list from query string to element id.  Timestamps are omitted:
they influence no observable behaviour (recency is the list order). -/

/-- `CacheEntry` (timestamp omitted, see above). -/
structure CacheEntry where
  Query : QueryAST
  Results : Table
deriving DecidableEq

/-- `SemanticCache` state, together with its statistics counters. -/
structure SemanticCache where
  entries : List Nat
  arena : List (Nat × CacheEntry)
  lookup : List (String × Nat)
  maxSize : Nat
  nextId : Nat
  totalQueries : Nat
  directHits : Nat
  semanticHits : Nat
  cacheMisses : Nat
deriving DecidableEq

/-- `CACHE_MAX_SIZE`. -/
def CACHE_MAX_SIZE : Nat := 5

/-- `InitSQLCache`. -/
def InitSQLCache : SemanticCache :=
  { entries := [], arena := [], lookup := [], maxSize := CACHE_MAX_SIZE
    nextId := 0, totalQueries := 0, directHits := 0, semanticHits := 0, cacheMisses := 0 }

/-- Map lookup in the direct index. -/
def lookupFind (m : List (String × Nat)) (k : String) : Option Nat :=
  (m.find? (fun p => p.1 == k)).map (·.2)

/-- Payload of an element id. -/
def arenaGet (sc : SemanticCache) (id : Nat) : Option CacheEntry :=
  (sc.arena.find? (fun p => p.1 == id)).map (·.2)

/-- `list.MoveToFront`: moves the element when it is in the list, otherwise
leaves the list unchanged (a removed Go element is silently ignored). -/
def listMoveToFront (l : List Nat) (id : Nat) : List Nat :=
  if l.contains id then id :: l.filter (· ≠ id) else l

/-- Replace the `Results` of the entry with the given id (the Go code writes
through the element pointer). -/
def arenaSetResults (arena : List (Nat × CacheEntry)) (id : Nat) (results : Table) :
    List (Nat × CacheEntry) :=
  arena.map (fun p => if p.1 == id then (p.1, { p.2 with Results := results }) else p)

/-- `SemanticCache.Get`: direct lookup, promoting on hit and counting a
direct hit.  (Ids stored in `lookup` always have arena payloads, so the
`none` fallthrough of the inner match is unreachable.) -/
def SemanticCache.Get (sc : SemanticCache) (queryString : String) :
    Option CacheEntry × SemanticCache :=
  match lookupFind sc.lookup queryString with
  | none => (none, sc)
  | some id =>
    match arenaGet sc id with
    | none => (none, sc)
    | some entry =>
      (some entry,
       { sc with entries := listMoveToFront sc.entries id
                 directHits := sc.directHits + 1 })

/-- `SemanticCache.AddToCache`: update-in-place on an existing key,
otherwise evict the back element when full (deleting the lookup key equal
to the evicted entry's `OriginalString`) and push the new entry to the
front. -/
def SemanticCache.AddToCache (sc : SemanticCache) (queryString : String)
    (query : QueryAST) (results : Table) : SemanticCache :=
  match lookupFind sc.lookup queryString with
  | some id =>
    { sc with arena := arenaSetResults sc.arena id results
              entries := listMoveToFront sc.entries id }
  | none =>
    let sc1 :=
      if sc.entries.length ≥ sc.maxSize then
        match sc.entries.getLast? with
        | some lruId =>
          match arenaGet sc lruId with
          | some lruEntry =>
            { sc with entries := sc.entries.dropLast
                      lookup := sc.lookup.filter
                        (fun p => p.1 ≠ lruEntry.Query.OriginalString) }
          | none => sc
        | none => sc
      else sc
    { sc1 with entries := sc1.nextId :: sc1.entries
               arena := (sc1.nextId, ⟨query, results⟩) :: sc1.arena
               lookup := (queryString, sc1.nextId) :: sc1.lookup
               nextId := sc1.nextId + 1 }

/-- The cache entries in recency order (front = most recent). -/
def cacheEntriesList (sc : SemanticCache) : List CacheEntry :=
  sc.entries.filterMap (arenaGet sc)

/-- The scan core of `FindSemanticHit` over the recency-ordered entries. -/
def findSemanticHitList : List CacheEntry → QueryAST → Option (Table × QueryAST)
  | [], _ => none
  | e :: rest, newQuery =>
    if isQuerySubset newQuery e.Query then
      some (filterResultsFromSuperset e.Results newQuery.Where, e.Query)
    else findSemanticHitList rest newQuery

/-- `SemanticCache.FindSemanticHit`: first subsuming entry from MRU to LRU;
no cache state is changed (the Go code only refreshes a timestamp under its
read lock). -/
def SemanticCache.FindSemanticHit (sc : SemanticCache) (newQuery : QueryAST) :
    Option (Table × QueryAST) :=
  findSemanticHitList (cacheEntriesList sc) newQuery

/-! ### Backing database (sql_storage.go, `InitBackingDB`) -/

/-- The `users` table populated by `InitBackingDB`. -/
def usersTable : Table :=
  { Name := "users"
    Columns := ["id", "name", "age"]
    Rows :=
      [ [("id", .vInt 1), ("name", .vStr "Alice"), ("age", .vInt 31)],
        [("id", .vInt 2), ("name", .vStr "Bob"), ("age", .vInt 45)],
        [("id", .vInt 3), ("name", .vStr "Charlie"), ("age", .vInt 55)],
        [("id", .vInt 4), ("name", .vStr "David"), ("age", .vInt 25)],
        [("id", .vInt 5), ("name", .vStr "Eve"), ("age", .vInt 60)],
        [("id", .vInt 6), ("name", .vStr "Frank"), ("age", .vInt 42)],
        [("id", .vInt 7), ("name", .vStr "Grace"), ("age", .vInt 97)],
        [("id", .vInt 8), ("name", .vStr "Heidi"), ("age", .vInt 83)],
        [("id", .vInt 9), ("name", .vStr "Ivan"), ("age", .vInt 76)],
        [("id", .vInt 10), ("name", .vStr "Judy"), ("age", .vInt 64)],
        [("id", .vInt 11), ("name", .vStr "Karl"), ("age", .vInt 19)],
        [("id", .vInt 12), ("name", .vStr "Laura"), ("age", .vInt 8)],
        [("id", .vInt 13), ("name", .vStr "Mike"), ("age", .vInt 91)],
        [("id", .vInt 14), ("name", .vStr "Nina"), ("age", .vInt 92)],
        [("id", .vInt 15), ("name", .vStr "Oscar"), ("age", .vInt 88)] ] }

/-- The `products` table populated by `InitBackingDB`. -/
def productsTable : Table :=
  { Name := "products"
    Columns := ["id", "item", "stock"]
    Rows :=
      [ [("id", .vInt 101), ("item", .vStr "apple"), ("stock", .vInt 500)],
        [("id", .vInt 102), ("item", .vStr "banana"), ("stock", .vInt 200)],
        [("id", .vInt 103), ("item", .vStr "orange"), ("stock", .vInt 350)] ] }

/-- The `server_logs` table populated by `InitBackingDB`. -/
def serverLogsTable : Table :=
  { Name := "server_logs"
    Columns := ["id", "server_name", "cpu_load", "status"]
    Rows :=
      [ [("id", .vInt 1001), ("server_name", .vStr "web-01"), ("cpu_load", .vInt 25), ("status", .vStr "OK")],
        [("id", .vInt 1002), ("server_name", .vStr "web-02"), ("cpu_load", .vInt 82), ("status", .vStr "WARNING")],
        [("id", .vInt 1003), ("server_name", .vStr "db-01"), ("cpu_load", .vInt 91), ("status", .vStr "WARNING")],
        [("id", .vInt 1004), ("server_name", .vStr "api-01"), ("cpu_load", .vInt 75), ("status", .vStr "OK")],
        [("id", .vInt 1005), ("server_name", .vStr "web-01"), ("cpu_load", .vInt 30), ("status", .vStr "OK")],
        [("id", .vInt 1006), ("server_name", .vStr "web-03"), ("cpu_load", .vInt 85), ("status", .vStr "WARNING")],
        [("id", .vInt 1007), ("server_name", .vStr "api-02"), ("cpu_load", .vInt 96), ("status", .vStr "ERROR")],
        [("id", .vInt 1008), ("server_name", .vStr "db-01"), ("cpu_load", .vInt 92), ("status", .vStr "WARNING")],
        [("id", .vInt 1009), ("server_name", .vStr "web-02"), ("cpu_load", .vInt 88), ("status", .vStr "WARNING")],
        [("id", .vInt 1010), ("server_name", .vStr "cache-01"), ("cpu_load", .vInt 15), ("status", .vStr "OK")],
        [("id", .vInt 1011), ("server_name", .vStr "web-01"), ("cpu_load", .vInt 40), ("status", .vStr "OK")],
        [("id", .vInt 1012), ("server_name", .vStr "api-01"), ("cpu_load", .vInt 81), ("status", .vStr "WARNING")],
        [("id", .vInt 1013), ("server_name", .vStr "db-02"), ("cpu_load", .vInt 99), ("status", .vStr "ERROR")],
        [("id", .vInt 1014), ("server_name", .vStr "web-03"), ("cpu_load", .vInt 89), ("status", .vStr "WARNING")] ] }

/-- `BackingDatabase` as populated by `InitBackingDB`. -/
def BackingDatabase : List (String × Table) :=
  [("users", usersTable), ("products", productsTable), ("server_logs", serverLogsTable)]

/-! ### Request pipeline (SQL handler file) -/

/-- The separator `\r\n`. -/
def crlfList : List Char := ['\r', '\n']

/-- The tail of `extractSQLQuery` after the SELECT-substring block: the
`SQL` RESP fallback and the `SQLSTATS` fallbacks. -/
def extractSQLTail (input : String) (parts : List String) : String :=
  if decide (parts.length > 4) && goEqualFold (parts.getD 2 "") "SQL" then parts.getD 4 ""
  else if decide (parts.length ≥ 3) && goEqualFold (parts.getD 2 "") "SQLSTATS" then "SQLSTATS"
  else if goContains (goToUpper input) "SQLSTATS" then "SQLSTATS"
  else ""

/-- `extractSQLQuery` from the SQL handler file.  Byte indices coincide with
character indices on the ASCII inputs the server receives. -/
def extractSQLQuery (input : String) : String :=
  let parts := goSplit input "\r\n"
  let p2 := parts.getD 2 ""
  let p4 := parts.getD 4 ""
  if decide (parts.length > 4) && (goEqualFold p2 "SQL" || goContains p4 "SELECT")
      && goContains p4 "SELECT" then p4
  else
    -- the `len(parts) > 4 && strings.Contains(parts[0], "SELECT")` block of
    -- the source has an empty body and is skipped
    if goContains input "SELECT" then
      match strIndexList "SELECT".data (goToUpper input).data with
      | some idx =>
        let q := input.data.drop idx
        let q :=
          match strIndexList crlfList q with
          | some endIdx => q.take endIdx
          | none => q
        goTrimSpace (String.mk q)
      | none => extractSQLTail input parts
    else extractSQLTail input parts

/-- Padding of Go `fmt.Sprintf("%-*v", width, x)`: left-justify with spaces
up to `width`. -/
def padRight (s : String) (width : Nat) : String :=
  s ++ String.mk (List.replicate (width - s.data.length) ' ')

/-- Rendering of a looked-up cell in `formatResults`: a missing map key is a
nil interface and `%v` prints it as `<nil>`. -/
def cellRender (v : Option Value) : String :=
  match v with
  | some w => valueRender w
  | none => "<nil>"

/-- `formatResults` from the SQL handler file (on a non-nil table). -/
def formatResults (table : Table) : String :=
  if table.Rows.length = 0 then "$-1\r\n"
  else
    let width := fun (col : String) =>
      (table.Rows.map (fun row => (cellRender (rowGet row col)).data.length)).foldl
        max col.data.length
    let headerLine :=
      String.intercalate " | " (table.Columns.map (fun col => padRight col (width col)))
    let separatorLine :=
      String.intercalate "-+-"
        (table.Columns.map (fun col => String.mk (List.replicate (width col) '-')))
    let rowLines :=
      table.Rows.map (fun row =>
        String.intercalate " | "
          (table.Columns.map (fun col => padRight (cellRender (rowGet row col)) (width col))))
    let tableString :=
      headerLine ++ "\n" ++ separatorLine ++ "\n"
        ++ String.join (rowLines.map (· ++ "\n"))
        ++ "\n(" ++ toString table.Rows.length ++ " rows)\n"
    "$" ++ toString tableString.data.length ++ "\r\n" ++ tableString ++ "\r\n"

/-- The part of `HandleSQL` following a successful parse: direct probe,
semantic probe, then miss (penalty sleep elided), backing-store execution
and insertion.  Returns the new cache state and the bytes written to the
connection. -/
def handleParsed (db : List (String × Table)) (sc : SemanticCache)
    (sqlQueryString : String) (queryAST : QueryAST) : SemanticCache × String :=
  match sc.Get sqlQueryString with
  | (some entry, sc1) => (sc1, formatResults entry.Results)
  | (none, sc1) =>
    match sc1.FindSemanticHit queryAST with
    | some (results, _cachedQuery) =>
      ({ sc1 with semanticHits := sc1.semanticHits + 1 }, formatResults results)
    | none =>
      let sc2 := { sc1 with cacheMisses := sc1.cacheMisses + 1 }
      match executeOnBackingStore db queryAST with
      | .error msg => (sc2, "-ERR " ++ msg ++ "\r\n")
      | .ok results =>
        (sc2.AddToCache sqlQueryString queryAST results, formatResults results)

/-- `HandleSQL` from the SQL handler file: counts the query, extracts and
parses the SQL, then delegates to the cache pipeline.  Returns the new
cache state and the bytes written to the connection. -/
def HandleSQL (db : List (String × Table)) (sc : SemanticCache) (input : String) :
    SemanticCache × String :=
  let sc0 := { sc with totalQueries := sc.totalQueries + 1 }
  let sqlQueryString := extractSQLQuery input
  if sqlQueryString == "" then (sc0, "-ERR invalid SQL command\r\n")
  else
    match ParseSQL sqlQueryString with
    | .error msg => (sc0, "-ERR " ++ msg ++ "\r\n")
    | .ok queryAST => handleParsed db sc0 sqlQueryString queryAST

/-- A request that passes both protocol extraction and parsing; whether it
does depends only on the input string. -/
def requestWellFormed (input : String) : Bool :=
  extractSQLQuery input != "" && parseOk (ParseSQL (extractSQLQuery input))

/-! ### Concrete objects used by the individual claims -/

/-- The statistics counters of a cache state, bundled. -/
def statSum (sc : SemanticCache) : Nat :=
  sc.directHits + sc.semanticHits + sc.cacheMisses

/-- One pipeline step as a fold function over request strings. -/
def pipelineStep (db : List (String × Table)) (sc : SemanticCache) (input : String) :
    SemanticCache :=
  (HandleSQL db sc input).1

/-- Cached query of the C1 scenario: a projection to `name` with an `age`
predicate. -/
def c1qc : QueryAST :=
  { OriginalString := "SELECT name FROM users WHERE age > 40"
    SelectColumns := ["name"], FromTable := "users"
    Where := some { Column := "age", Operator := ">", Value := "40" } }

/-- New query of the C1 scenario: same projection, tighter predicate. -/
def c1qn : QueryAST :=
  { OriginalString := "SELECT name FROM users WHERE age > 50"
    SelectColumns := ["name"], FromTable := "users"
    Where := some { Column := "age", Operator := ">", Value := "50" } }

/-- Cache state after serving the C1 cached query on a fresh cache. -/
def c1state : SemanticCache :=
  pipelineStep BackingDatabase InitSQLCache "SELECT name FROM users WHERE age > 40"

/-- Cached query of the C2 scenario: a star query with an `age` predicate. -/
def c2qc : QueryAST :=
  { OriginalString := "SELECT * FROM users WHERE age > 40"
    SelectColumns := ["*"], FromTable := "users"
    Where := some { Column := "age", Operator := ">", Value := "40" } }

/-- New query of the C2 scenario: explicit projection, tighter predicate. -/
def c2qn : QueryAST :=
  { OriginalString := "SELECT name FROM users WHERE age > 50"
    SelectColumns := ["name"], FromTable := "users"
    Where := some { Column := "age", Operator := ">", Value := "50" } }

/-- Cache holding the materialized C2 cached query. -/
def c2cache : SemanticCache :=
  { InitSQLCache with
      entries := [0]
      arena := [(0, ⟨c2qc, evalQuery c2qc usersTable⟩)]
      lookup := [("SELECT * FROM users WHERE age > 40", 0)]
      nextId := 1 }

/-- The table the C2 lookup actually returns. -/
def c2tbl : Table :=
  filterResultsFromSuperset (evalQuery c2qc usersTable) c2qn.Where

/-- New query of the C3 counterexample: a star query. -/
def c3qn : QueryAST :=
  { OriginalString := "SELECT * FROM users", SelectColumns := ["*"]
    FromTable := "users", Where := none }

/-- Cached query of the C3 counterexample: a non-star projection. -/
def c3qc : QueryAST :=
  { OriginalString := "SELECT name FROM users", SelectColumns := ["name"]
    FromTable := "users", Where := none }

/-- Queries of the C3 witness. -/
def c3wqn : QueryAST :=
  { OriginalString := "SELECT name FROM users", SelectColumns := ["name"]
    FromTable := "users", Where := none }

/-- Cached query of the C3 witness. -/
def c3wqc : QueryAST :=
  { OriginalString := "SELECT name, age FROM users", SelectColumns := ["name", "age"]
    FromTable := "users", Where := none }

/-- Cache state after the C4 failing request (trailing semicolon). -/
def c4state : SemanticCache :=
  pipelineStep BackingDatabase InitSQLCache "SELECT * FROM users;"

/-- Cache state after the C5 counterexample request (parse failure). -/
def c5state : SemanticCache :=
  pipelineStep BackingDatabase InitSQLCache "SELECT junk"

/-- Cache state of the C9 seed scenario. -/
def c9state : SemanticCache :=
  pipelineStep BackingDatabase InitSQLCache "SELECT * FROM users WHERE age > 40"

/-- Cached query of the C10 witness: a star query with no predicate. -/
def c10qc : QueryAST :=
  { OriginalString := "SELECT * FROM products", SelectColumns := ["*"]
    FromTable := "products", Where := none }

/-- New query of the C10 witness: an explicit projection with no predicate. -/
def c10qn : QueryAST :=
  { OriginalString := "SELECT item FROM products", SelectColumns := ["item"]
    FromTable := "products", Where := none }

/-- Cache holding the materialized C10 cached query. -/
def c10cache : SemanticCache :=
  { InitSQLCache with
      entries := [0]
      arena := [(0, ⟨c10qc, evalQuery c10qc productsTable⟩)]
      lookup := [("SELECT * FROM products", 0)]
      nextId := 1 }

/-! ### Helper lemmas -/

/-- Characterization of a successful semantic scan: the hit is the first
subsuming entry in recency order, and the returned table is the cached
results filtered by the new predicate only. -/
theorem findSemanticHitList_spec (entries : List CacheEntry) (q : QueryAST)
    (tbl : Table) (cq : QueryAST)
    (h : findSemanticHitList entries q = some (tbl, cq)) :
    ∃ pre e post, entries = pre ++ e :: post ∧
      (∀ e' ∈ pre, isQuerySubset q e'.Query = false) ∧
      isQuerySubset q e.Query = true ∧ cq = e.Query ∧
      tbl = filterResultsFromSuperset e.Results q.Where := by
  induction entries with
  | nil => simp [findSemanticHitList] at h
  | cons e rest ih =>
    by_cases hs : isQuerySubset q e.Query = true
    · refine ⟨[], e, rest, by simp, by simp, hs, ?_, ?_⟩ <;>
        · simp only [findSemanticHitList, hs, if_true] at h
          cases h
          rfl
    · simp only [findSemanticHitList, hs, if_false, Bool.not_eq_true] at h
      rw [if_neg (by simp [hs])] at h
      obtain ⟨pre, e1, post, hsplit, hpre, hsub, hcq, htbl⟩ := ih h
      exact ⟨e :: pre, e1, post, by simp [hsplit], by
        intro e' he'
        rcases List.mem_cons.mp he' with rfl | hmem
        · simpa using hs
        · exact hpre e' hmem, hsub, hcq, htbl⟩

/-- Columns returned by `filterResultsFromSuperset` are the superset's. -/
theorem filterResultsFromSuperset_columns (superset : Table)
    (cond : Option WhereCondition) :
    (filterResultsFromSuperset superset cond).Columns = superset.Columns := by
  cases cond <;> rfl

/-- A subsuming pair always agrees on the table. -/
theorem isQuerySubset_fromTable (qn qc : QueryAST) (h : isQuerySubset qn qc = true) :
    qn.FromTable = qc.FromTable := by
  unfold isQuerySubset at h
  by_cases hft : qn.FromTable = qc.FromTable
  · exact hft
  · rw [if_pos (by simpa [bne_iff_ne] using hft)] at h
    exact absurd h (by simp)

/-- A subsuming pair always passes the predicate-subsumption check. -/
theorem isQuerySubset_cond (qn qc : QueryAST) (h : isQuerySubset qn qc = true) :
    isConditionSubset qn.Where qc.Where = true := by
  unfold isQuerySubset at h
  by_cases hft : (qn.FromTable != qc.FromTable) = true
  · rw [if_pos hft] at h; exact absurd h (by simp)
  · rw [if_neg (by simpa using hft)] at h
    simp only [Bool.and_eq_true] at h
    exact h.2

/-- A new query with no WHERE clause can only be subsumed by a cached query
with no WHERE clause. -/
theorem isConditionSubset_none_left (cc : Option WhereCondition)
    (h : isConditionSubset none cc = true) : cc = none := by
  cases cc with
  | none => rfl
  | some c => simp [isConditionSubset] at h

/-- Direct lookup touches no counter except `directHits`, which it bumps
exactly on a hit. -/
theorem Get_counters (sc : SemanticCache) (qs : String) :
    (sc.Get qs).2.totalQueries = sc.totalQueries ∧
    (sc.Get qs).2.semanticHits = sc.semanticHits ∧
    (sc.Get qs).2.cacheMisses = sc.cacheMisses ∧
    (sc.Get qs).2.directHits
      = (if (sc.Get qs).1.isSome then sc.directHits + 1 else sc.directHits) := by
  unfold SemanticCache.Get
  rcases h1 : lookupFind sc.lookup qs with _ | id
  · simp [h1]
  · rcases h2 : arenaGet sc id with _ | entry <;> simp [h1, h2]

/-- Insertion touches no statistics counter. -/
theorem AddToCache_counters (sc : SemanticCache) (qs : String) (q : QueryAST) (r : Table) :
    (sc.AddToCache qs q r).totalQueries = sc.totalQueries ∧
    (sc.AddToCache qs q r).directHits = sc.directHits ∧
    (sc.AddToCache qs q r).semanticHits = sc.semanticHits ∧
    (sc.AddToCache qs q r).cacheMisses = sc.cacheMisses := by
  unfold SemanticCache.AddToCache
  rcases h1 : lookupFind sc.lookup qs with _ | id
  · simp only []
    split <;> [skip; simp]
    split <;> [skip; simp]
    split <;> simp
  · simp

/-- After a successful parse, the pipeline bumps exactly one of the three
hit/miss counters and leaves `totalQueries` unchanged. -/
theorem handleParsed_counters (db : List (String × Table)) (sc : SemanticCache)
    (qs : String) (ast : QueryAST) :
    (handleParsed db sc qs ast).1.totalQueries = sc.totalQueries ∧
    statSum (handleParsed db sc qs ast).1 = statSum sc + 1 := by
  unfold handleParsed statSum
  rcases hg : sc.Get qs with ⟨r, sc1⟩
  have hc := Get_counters sc qs
  rw [hg] at hc
  obtain ⟨ht, hs, hm, hd⟩ := hc
  simp only at ht hs hm hd
  rcases r with _ | entry
  · simp only [Option.isSome_none, Bool.false_eq_true, if_false] at hd
    rcases hfs : sc1.FindSemanticHit ast with _ | p
    · rcases hex : executeOnBackingStore db ast with msg | results
      · simp [hg, hfs, hex, ht, hs, hm, hd]; omega
      · have ha := AddToCache_counters
          { sc1 with cacheMisses := sc1.cacheMisses + 1 } qs ast results
        simp only at ha
        simp only [hg, hfs, hex]
        rw [ha.1, ha.2.1, ha.2.2.1, ha.2.2.2]
        omega
    · rcases p with ⟨results, cq⟩
      simp [hg, hfs, ht, hs, hm, hd]
      omega
  · simp only [Option.isSome_some, if_true] at hd
    simp [hg, ht, hs, hm, hd]
    omega

/-- One well-formed request bumps `totalQueries` by one and the sum of the
hit/miss counters by one. -/
theorem HandleSQL_counters_step (db : List (String × Table)) (sc : SemanticCache)
    (input : String) (h : requestWellFormed input = true) :
    (pipelineStep db sc input).totalQueries = sc.totalQueries + 1 ∧
    statSum (pipelineStep db sc input) = statSum sc + 1 := by
  unfold pipelineStep HandleSQL
  unfold requestWellFormed at h
  simp only [Bool.and_eq_true, bne_iff_ne, ne_eq] at h
  obtain ⟨hx, hp⟩ := h
  rw [if_neg (by simpa using hx)]
  rcases hP : ParseSQL (extractSQLQuery input) with msg | ast
  · rw [hP] at hp; simp [parseOk] at hp
  · have := handleParsed_counters db
      { sc with totalQueries := sc.totalQueries + 1 } (extractSQLQuery input) ast
    simp only at this
    unfold statSum at this ⊢
    exact ⟨this.1, this.2⟩

/-- Success of the backtracking candidate fold is success of some
candidate. -/
theorem foldFirst_isSome_iff {α β : Type} (f : α → Option β) (l : List α) :
    (foldFirst f l).isSome = l.any (fun a => (f a).isSome) := by
  induction l with
  | nil => rfl
  | cons a as ih =>
    simp only [foldFirst, List.any_cons]
    rcases h : f a with _ | b
    · simp [ih]
    · simp

/-- If a token sequence extended on the right matches at a position, the
original sequence matches there as well. -/
theorem reMatch_isSome_of_append (ts2 : List RTok) :
    ∀ (ts1 : List RTok) (s : List Char),
      (reMatch (ts1 ++ ts2) s).isSome = true → (reMatch ts1 s).isSome = true := by
  intro ts1
  induction ts1 with
  | nil => intro s _; simp [reMatch]
  | cons t ts ih =>
    intro s h
    cases t with
    | lit w =>
      simp only [List.cons_append, reMatch] at h ⊢
      rcases hs : stripCI w s with _ | s1
      · rw [hs] at h; simp at h
      · rw [hs] at h
        exact ih s1 (by simpa [List.append_eq] using h)
    | wsPlus =>
      simp only [List.cons_append, reMatch, foldFirst_isSome_iff,
        List.any_eq_true] at h ⊢
      obtain ⟨sp, hmem, hsome⟩ := h
      exact ⟨sp, hmem, ih sp.2 (by simpa [List.append_eq] using hsome)⟩
    | wsStar =>
      simp only [List.cons_append, reMatch, foldFirst_isSome_iff,
        List.any_eq_true] at h ⊢
      obtain ⟨sp, hmem, hsome⟩ := h
      exact ⟨sp, hmem, ih sp.2 (by simpa [List.append_eq] using hsome)⟩
    | grpAny =>
      simp only [List.cons_append, reMatch, foldFirst_isSome_iff,
        List.any_eq_true, Option.isSome_map'] at h ⊢
      obtain ⟨sp, hmem, hsome⟩ := h
      exact ⟨sp, hmem, ih sp.2 (by simpa [List.append_eq] using hsome)⟩
    | grpNonWS =>
      simp only [List.cons_append, reMatch, foldFirst_isSome_iff,
        List.any_eq_true, Option.isSome_map'] at h ⊢
      obtain ⟨sp, hmem, hsome⟩ := h
      exact ⟨sp, hmem, ih sp.2 (by simpa [List.append_eq] using hsome)⟩
    | grpOp =>
      rcases s with _ | ⟨c, rest⟩
      · simp [reMatch] at h
      · simp only [List.cons_append, reMatch] at h ⊢
        by_cases hc : (c = '<' || c = '>' || c = '=') = true
        · simp only [hc, if_true, Option.isSome_map'] at h ⊢
          exact ih rest (by simpa [List.append_eq] using h)
        · simp only [hc, if_false] at h
          simp at h

/-- Unanchored variant of `reMatch_isSome_of_append`. -/
theorem reFind_isSome_of_append (ts1 ts2 : List RTok) :
    ∀ (s : List Char),
      (reFind (ts1 ++ ts2) s).isSome = true → (reFind ts1 s).isSome = true := by
  intro s
  induction s with
  | nil =>
    intro h
    simp only [reFind] at h ⊢
    exact reMatch_isSome_of_append ts2 ts1 [] h
  | cons c t ih =>
    intro h
    simp only [reFind] at h ⊢
    rcases hm : reMatch (ts1 ++ ts2) (c :: t) with _ | caps <;> rw [hm] at h
    · rcases hm1 : reMatch ts1 (c :: t) with _ | caps1
      · exact ih h
      · simp
    · have h1 : (reMatch ts1 (c :: t)).isSome = true :=
        reMatch_isSome_of_append ts2 ts1 (c :: t) (by rw [hm]; rfl)
      rcases hm1 : reMatch ts1 (c :: t) with _ | caps1
      · rw [hm1] at h1; simp at h1
      · simp

/-- `ParseSQL` has a single failure message. -/
theorem ParseSQL_error_eq (s msg : String) (h : ParseSQL s = .error msg) :
    msg = "ERR invalid or unsupported SQL query format" := by
  unfold ParseSQL at h
  rcases h1 : reFind sqlRegexToks (processInput s).data with _ | c1 <;> rw [h1] at h
  · rcases h2 : reFind sqlRegexNoWhereToks (processInput s).data with _ | c2 <;>
      rw [h2] at h
    · simp only [Except.error.injEq] at h
      exact h.symm
    · simp at h
  · simp at h

/-- Rows returned by `filterResultsFromSuperset` are the superset's rows
filtered by the new predicate. -/
theorem filterResultsFromSuperset_rows (superset : Table) (cond : Option WhereCondition) :
    (filterResultsFromSuperset superset cond).Rows
      = superset.Rows.filter (fun row => checkCondition row cond) := by
  cases cond with
  | none => simp [filterResultsFromSuperset, checkCondition]
  | some nc => rfl

/-! ### Claim theorems -/

/-- C1: the code violates subsumption soundness.  With the `users` backing
table, the cached query `SELECT name FROM users WHERE age > 40` and the new
query `SELECT name FROM users WHERE age > 50`, `isQuerySubset` accepts the
pair, yet evaluating the new query against the backing table yields 9 rows
while evaluating it over the cached (name-only) results yields none — the
cached projection dropped the `age` column the new predicate needs.  The
pipeline consequently serves the empty reply `$-1` as a semantic hit. -/
theorem C1_subsumption_unsound_on_projection :
    isQuerySubset c1qn c1qc = true ∧
    (evalQuery c1qn usersTable).Rows.length = 9 ∧
    (evalQuery c1qn (evalQuery c1qc usersTable)).Rows = [] ∧
    (HandleSQL BackingDatabase c1state "SELECT name FROM users WHERE age > 50").1.semanticHits = 1 ∧
    (HandleSQL BackingDatabase c1state "SELECT name FROM users WHERE age > 50").2 = "$-1\r\n" := by
  decide

/-- C2 counterexample: the claim says a semantic hit is re-projected to the
new query's columns; with the cached star query over `users` and the new
query projecting only `name`, `FindSemanticHit` returns all three cached
columns instead of `name` alone. -/
theorem C2_counterexample :
    (c2cache.FindSemanticHit c2qn).map (fun p => p.1.Columns)
      = some ["id", "name", "age"] ∧
    some ["id", "name", "age"] ≠ some ["name"] := by decide

/-- C2 (amended): a semantic hit returns the first subsuming entry's cached
results filtered by the new query's WHERE predicate only; the returned
columns are the cached results' columns and the rows are not re-projected
to the new query's select list. -/
theorem C2_semantic_hit_filters_only (sc : SemanticCache) (q : QueryAST)
    (tbl : Table) (cq : QueryAST)
    (h : sc.FindSemanticHit q = some (tbl, cq)) :
    ∃ pre e post, cacheEntriesList sc = pre ++ e :: post ∧
      (∀ e' ∈ pre, isQuerySubset q e'.Query = false) ∧
      isQuerySubset q e.Query = true ∧ cq = e.Query ∧
      tbl = filterResultsFromSuperset e.Results q.Where ∧
      tbl.Columns = e.Results.Columns ∧
      tbl.Rows = e.Results.Rows.filter (fun row => checkCondition row q.Where) := by
  obtain ⟨pre, e, post, hsplit, hpre, hsub, hcq, htbl⟩ :=
    findSemanticHitList_spec (cacheEntriesList sc) q tbl cq h
  refine ⟨pre, e, post, hsplit, hpre, hsub, hcq, htbl, ?_, ?_⟩
  · rw [htbl]; exact filterResultsFromSuperset_columns e.Results q.Where
  · rw [htbl]; exact filterResultsFromSuperset_rows e.Results q.Where

/-- C2 witness: the amended statement holds at the concrete star-query
cache. -/
theorem C2_semantic_hit_filters_only_witness :
    ∃ pre e post, cacheEntriesList c2cache = pre ++ e :: post ∧
      (∀ e' ∈ pre, isQuerySubset c2qn e'.Query = false) ∧
      isQuerySubset c2qn e.Query = true ∧ c2qc = e.Query ∧
      c2tbl = filterResultsFromSuperset e.Results c2qn.Where ∧
      c2tbl.Columns = e.Results.Columns ∧
      c2tbl.Rows = e.Results.Rows.filter (fun row => checkCondition row c2qn.Where) :=
  C2_semantic_hit_filters_only c2cache c2qn c2tbl c2qc (by decide)

/-- C3 counterexample: the claim says subsumption must fail when the new
query selects `*` and the cached query does not; the check skips wildcard
entries, so the star query is accepted against a `name`-only cached
query. -/
theorem C3_counterexample :
    c3qn.SelectColumns = ["*"] ∧ c3qc.SelectColumns.headD "" ≠ "*" ∧
    isQuerySubset c3qn c3qc = true := by decide

/-- C3 (amended): when the cached select list is not the wildcard, every
non-wildcard column of the new query's select list must appear in the
cached select list; wildcard entries are exempt from the check. -/
theorem C3_projection_requires_membership (qn qc : QueryAST)
    (hne : qc.SelectColumns.headD "" ≠ "*")
    (hsub : isQuerySubset qn qc = true) :
    ∀ col ∈ qn.SelectColumns, col ≠ "*" → col ∈ qc.SelectColumns := by
  intro col hmem hcol
  unfold isQuerySubset at hsub
  by_cases hft : (qn.FromTable != qc.FromTable) = true
  · rw [if_pos hft] at hsub; exact absurd hsub (by simp)
  · rw [if_neg hft] at hsub
    simp only [Bool.and_eq_true] at hsub
    have hsel := hsub.1
    rw [if_pos (by simpa [bne_iff_ne] using hne)] at hsel
    simp only [List.all_eq_true] at hsel
    have hcase := hsel col hmem
    simp only [Bool.or_eq_true, beq_iff_eq] at hcase
    rcases hcase with h1 | h2
    · exact absurd h1 hcol
    · exact List.mem_of_elem_eq_true h2

/-- C3 witness: the amended statement holds at a concrete explicit-list
pair. -/
theorem C3_projection_requires_membership_witness :
    "name" ∈ c3wqc.SelectColumns :=
  C3_projection_requires_membership c3wqn c3wqc (by decide) (by decide)
    "name" (by decide) (by decide)

/-- C4: after the pipeline caches the request `SELECT * FROM users;`, the
direct-lookup index is keyed by the raw string (with the semicolon) while
the stored entry's `OriginalString` is the semicolon-stripped text, so the
two key sets differ — and eviction deletes by `OriginalString`, which would
never remove the raw key. -/
theorem C4_lookup_key_diverges_from_original_text :
    c4state.lookup.map Prod.fst = ["SELECT * FROM users;"] ∧
    (cacheEntriesList c4state).map (fun e => e.Query.OriginalString)
      = ["SELECT * FROM users"] ∧
    (["SELECT * FROM users;"] : List String) ≠ ["SELECT * FROM users"] := by decide

/-- C5 counterexample: a request whose SQL fails to parse increments
`total_queries` but none of the hit/miss counters, so the claimed identity
fails right after the first such request. -/
theorem C5_counterexample :
    c5state.totalQueries = 1 ∧ statSum c5state = 0 := by decide

/-- C5 (amended): the identity `total_queries = direct_hits + semantic_hits
+ misses` holds after any sequence of requests each of which passes
protocol extraction and parsing; requests ending in a protocol or parse
error bump only `total_queries`. -/
theorem C5_identity_on_wellformed_traces (db : List (String × Table))
    (inputs : List String) (sc : SemanticCache)
    (h0 : sc.totalQueries = statSum sc)
    (hw : ∀ i ∈ inputs, requestWellFormed i = true) :
    (inputs.foldl (pipelineStep db) sc).totalQueries
      = statSum (inputs.foldl (pipelineStep db) sc) := by
  induction inputs generalizing sc with
  | nil => simpa using h0
  | cons i rest ih =>
    simp only [List.foldl_cons]
    apply ih
    · have hstep := HandleSQL_counters_step db sc i (hw i (by simp))
      omega
    · intro j hj
      exact hw j (by simp [hj])

/-- C5 witness: the amended identity holds on a concrete one-request
trace. -/
theorem C5_identity_on_wellformed_traces_witness :
    ((["SELECT id FROM products"].foldl (pipelineStep BackingDatabase) InitSQLCache).totalQueries
      = statSum (["SELECT id FROM products"].foldl (pipelineStep BackingDatabase) InitSQLCache)) :=
  C5_identity_on_wellformed_traces BackingDatabase ["SELECT id FROM products"] InitSQLCache
    (by decide) (by decide)

/-- C6 counterexample: both `05` and `5` parse to the integer 5, yet the
EQ/EQ predicate-subsumption check compares the lexical values and returns
false, contradicting the claimed integer-equality rule. -/
theorem C6_counterexample :
    WhereCondition.GetAsInt ⟨"age", "=", "05"⟩ = some 5 ∧
    WhereCondition.GetAsInt ⟨"age", "=", "5"⟩ = some 5 ∧
    isConditionSubset (some ⟨"age", "=", "05"⟩) (some ⟨"age", "=", "5"⟩) = false := by
  decide

/-- C6 (amended): for EQ/EQ predicates on the same column the subsumption
check returns true exactly when the two value strings are lexically equal —
the integer branch has no EQ/EQ rule, so control always falls through to
the string comparison. -/
theorem C6_eq_eq_is_lexical (nc cc : WhereCondition)
    (hcol : nc.Column = cc.Column) (hn : nc.Operator = "=") (hc : cc.Operator = "=") :
    isConditionSubset (some nc) (some cc) = (nc.Value == cc.Value) := by
  simp only [isConditionSubset, hcol, hn, hc]
  rcases h1 : nc.GetAsInt with _ | nv <;> rcases h2 : cc.GetAsInt with _ | cv <;>
    simp [h1, h2]

/-- C6 witness: the amended statement holds at a concrete EQ/EQ pair. -/
theorem C6_eq_eq_is_lexical_witness :
    isConditionSubset (some ⟨"status", "=", "OK"⟩) (some ⟨"status", "=", "OK"⟩)
      = ("OK" == "OK") :=
  C6_eq_eq_is_lexical ⟨"status", "=", "OK"⟩ ⟨"status", "=", "OK"⟩ rfl rfl rfl

/-- C7 counterexample: the claim says an input with trailing tokens after
the table name must fail; the unanchored regex accepts it and parses the
embedded shape. -/
theorem C7_counterexample :
    (ParseSQL "SELECT a FROM t yyy").toOption =
      some { OriginalString := "SELECT a FROM t yyy", SelectColumns := ["a"],
             FromTable := "t", Where := none } := by decide

/-- C7 (amended): `ParseSQL` succeeds exactly when the `SELECT ... FROM ...`
pattern matches somewhere in the trimmed, semicolon-stripped input (the
WHERE-shape pattern is an extension of it, so any WHERE match implies such
a match); matching is unanchored, so extra text around a shape is tolerated
and `ParseError` arises only when no substring matches. -/
theorem C7_unanchored_acceptance (s : String) :
    parseOk (ParseSQL s) = (reFind sqlRegexNoWhereToks (processInput s).data).isSome := by
  unfold ParseSQL
  rcases hw : reFind sqlRegexToks (processInput s).data with _ | caps
  · rcases hnw : reFind sqlRegexNoWhereToks (processInput s).data with _ | caps2 <;>
      simp [hw, hnw, parseOk]
  · have hsome : (reFind sqlRegexNoWhereToks (processInput s).data).isSome = true := by
      apply reFind_isSome_of_append sqlRegexNoWhereToks sqlRegexWhereSuffixToks
      rw [show sqlRegexNoWhereToks ++ sqlRegexWhereSuffixToks = sqlRegexToks from rfl]
      rw [hw]; rfl
    simp [hw, hsome, parseOk]

/-- C8 counterexample: on a parse failure the pipeline writes a line with a
doubled `ERR`, not the claimed `-ERR invalid or unsupported SQL query
format` line. -/
theorem C8_counterexample :
    (HandleSQL BackingDatabase InitSQLCache "SELECT oops").2
      = "-ERR ERR invalid or unsupported SQL query format\r\n" ∧
    ("-ERR ERR invalid or unsupported SQL query format\r\n" : String)
      ≠ "-ERR invalid or unsupported SQL query format\r\n" := by decide

/-- C8 (amended): for every request whose SQL extracts successfully but
fails to parse, the pipeline writes exactly
`-ERR ERR invalid or unsupported SQL query format\r\n` — the handler
prefixes `-ERR ` to an error message that itself begins with `ERR`. -/
theorem C8_parse_error_response (db : List (String × Table)) (sc : SemanticCache)
    (input : String) (hx : extractSQLQuery input ≠ "")
    (hp : parseOk (ParseSQL (extractSQLQuery input)) = false) :
    (HandleSQL db sc input).2
      = "-ERR ERR invalid or unsupported SQL query format\r\n" := by
  unfold HandleSQL
  rw [if_neg (by simpa using hx)]
  rcases hP : ParseSQL (extractSQLQuery input) with msg | ast
  · have hmsg := ParseSQL_error_eq (extractSQLQuery input) msg hP
    simp only [hP, hmsg]
    decide
  · rw [hP] at hp
    simp [parseOk] at hp

/-- C8 witness: the amended statement holds at a concrete failing
request. -/
theorem C8_parse_error_response_witness :
    (HandleSQL BackingDatabase InitSQLCache "SELECT nope").2
      = "-ERR ERR invalid or unsupported SQL query format\r\n" :=
  C8_parse_error_response BackingDatabase InitSQLCache "SELECT nope"
    (by decide) (by decide)

/-- C9 counterexample: on a fresh cache the seed query caches 11 rows, not
the claimed 8 — the backing `users` table also holds Mike, Nina and Oscar
with ages above 40. -/
theorem C9_counterexample :
    (cacheEntriesList c9state).map (fun e => e.Results.Rows.length) = [11] ∧
    (∃ e ∈ cacheEntriesList c9state,
      [("id", Value.vInt 13), ("name", Value.vStr "Mike"), ("age", Value.vInt 91)]
        ∈ e.Results.Rows) := by decide

/-- C9 (amended): the seed query on a fresh cache is a miss, the cache size
becomes 1, and the materialized result holds exactly the rows for Bob,
Charlie, Eve, Frank, Grace, Heidi, Ivan, Judy, Mike, Nina and Oscar. -/
theorem C9_seed_scenario_actual :
    c9state.cacheMisses = 1 ∧ c9state.directHits = 0 ∧ c9state.semanticHits = 0 ∧
    c9state.entries.length = 1 ∧
    (cacheEntriesList c9state).map (fun e => e.Results.Rows) =
      [[ [("id", Value.vInt 2), ("name", Value.vStr "Bob"), ("age", Value.vInt 45)],
         [("id", Value.vInt 3), ("name", Value.vStr "Charlie"), ("age", Value.vInt 55)],
         [("id", Value.vInt 5), ("name", Value.vStr "Eve"), ("age", Value.vInt 60)],
         [("id", Value.vInt 6), ("name", Value.vStr "Frank"), ("age", Value.vInt 42)],
         [("id", Value.vInt 7), ("name", Value.vStr "Grace"), ("age", Value.vInt 97)],
         [("id", Value.vInt 8), ("name", Value.vStr "Heidi"), ("age", Value.vInt 83)],
         [("id", Value.vInt 9), ("name", Value.vStr "Ivan"), ("age", Value.vInt 76)],
         [("id", Value.vInt 10), ("name", Value.vStr "Judy"), ("age", Value.vInt 64)],
         [("id", Value.vInt 13), ("name", Value.vStr "Mike"), ("age", Value.vInt 91)],
         [("id", Value.vInt 14), ("name", Value.vStr "Nina"), ("age", Value.vInt 92)],
         [("id", Value.vInt 15), ("name", Value.vStr "Oscar"), ("age", Value.vInt 88)] ]] := by
  decide

/-- C10: when the new query has no WHERE clause and the semantic scan hits,
the matched cached entry also has no WHERE clause (on the same table) and
the returned table is that entry's `Results` value itself, unchanged and
independent of the new query's select list. -/
theorem C10_no_where_hit_returns_cached (sc : SemanticCache) (q : QueryAST)
    (tbl : Table) (cq : QueryAST) (hq : q.Where = none)
    (h : sc.FindSemanticHit q = some (tbl, cq)) :
    ∃ e ∈ cacheEntriesList sc, cq = e.Query ∧ e.Query.Where = none ∧
      e.Query.FromTable = q.FromTable ∧ tbl = e.Results := by
  obtain ⟨pre, e, post, hsplit, hpre, hsub, hcq, htbl⟩ :=
    findSemanticHitList_spec (cacheEntriesList sc) q tbl cq h
  have hmem : e ∈ cacheEntriesList sc := by rw [hsplit]; simp
  have hcond := isQuerySubset_cond q e.Query hsub
  rw [hq] at hcond
  have hnone := isConditionSubset_none_left e.Query.Where hcond
  refine ⟨e, hmem, hcq, hnone, (isQuerySubset_fromTable q e.Query hsub).symm, ?_⟩
  rw [htbl, hq]
  rfl

/-- C10 witness: the statement holds at a concrete no-WHERE pair over the
`products` table. -/
theorem C10_no_where_hit_returns_cached_witness :
    ∃ e ∈ cacheEntriesList c10cache, c10qc = e.Query ∧ e.Query.Where = none ∧
      e.Query.FromTable = c10qn.FromTable ∧ evalQuery c10qc productsTable = e.Results :=
  C10_no_where_hit_returns_cached c10cache c10qn (evalQuery c10qc productsTable) c10qc
    rfl (by decide)

end MiniRedisSQL
